import Mathlib

/-!
Verification of the dwellr Listing Matching & Evaluation Engine.

Shallow embedding of the core subsystem, translated from the Python source:
  - `src/models/listing.py`   (Listing, PricePeriod, ListingType)
  - `src/models/user.py`      (User, hard filters, price normalization)
  - `src/models/listing_evaluation.py` (ListingEvaluation rows)
  - `src/services/listing_evaluator.py` (EvaluationResult, token cost table)
  - `src/services/listing_agent.py` (candidate selection, scoring loop, store)
  - `src/workers/tasks.py`    (evaluate_user_listings, credit deduction)
  - `src/services/user_service.py` (preference updates, validation)

Conventions of the embedding:
  - Python floats are modelled as exact rationals (`ℚ`).
  - datetimes are modelled as integer day numbers (`ℤ`); `timedelta(days=n)`
    is integer addition.  Stay durations, computed as `(end - start).days`,
    become integer subtraction.
  - ids (user ids, listing ids, row primary keys) are `ℕ`.
  - The external Evaluator is modelled by a per-listing behaviour function
    `beh : Listing → StepOutcome`: the call either raises or returns a
    score / reasoning / realized cost.
  - Database commits are recorded in an explicit transaction log (`Txn`):
    each committed transaction carries the evaluation rows it inserted and
    the change it applied to the user's `evaluation_credits`.

Two load-bearing defects of the source shape this model, so it has two
layers:
  - `Listing` has no `created_at` column (only `scraped_at`), yet
    `_get_candidate_listings` ends with
    `query.order_by(Listing.created_at.desc())` — so every call raises
    `AttributeError` while building the query, before anything is returned.
    The exceptions are `PyExc` values; `get_candidate_listings_run` and the
    run-level `find_and_evaluate_listings` / `evaluate_user_listings` model
    what actually executes (the exception propagates out of the agent — the
    `try` wraps only the loop body — and the task catches it as a permanent
    error, deducting nothing).
  - `ListingEvaluation.from_evaluation_result` passes an `evaluated_at=`
    keyword that no mapped column accepts, so the constructor raises
    `TypeError` on every call: `from_evaluation_result_run` /
    `store_evaluation_run` model the store as executed.
  Alongside, the crash-free *semantics* of the query's filters
  (`candidatePred`, `ListingAgent.get_candidate_listings`) and of the store's
  field mapping and `merge` (`ListingEvaluation.from_evaluation_result`,
  `Session.merge`, `ListingAgent.store_evaluation`) are kept, clearly
  documented, to settle the claims about those filters and about what the
  `merge` would do were the constructor repaired.
-/

namespace Dwellr

/-- The `PricePeriod` enum from `src/models/listing.py`. -/
inductive PricePeriod
  | day
  | week
  | month
  deriving DecidableEq, Repr

/-- The `ListingType` enum from `src/models/listing.py`. -/
inductive ListingType
  | sublet
  | rental
  deriving DecidableEq, Repr

/-- The `Listing` model from `src/models/listing.py` (fields relevant to the
matching engine; descriptive text fields are omitted as no claim mentions
them).  `scraped_at` is the model's only timestamp column — there is no
`created_at` column, which is why the candidate query's
`order_by(Listing.created_at.desc())` raises on every call. -/
structure Listing where
  id : ℕ
  price : Option ℚ
  price_period : Option PricePeriod
  start_date : Option ℤ
  end_date : Option ℤ
  listing_type : ListingType
  scraped_at : Option ℤ
  deriving DecidableEq, Repr

/-- The Python exceptions the modelled paths raise. -/
inductive PyExc
  | attributeError
  | typeError
  deriving DecidableEq, Repr

/-- The `User` model from `src/models/user.py` (preference, wallet and
bookkeeping fields used by the claims). -/
structure User where
  id : ℕ
  min_price : Option ℚ
  max_price : Option ℚ
  price_period : PricePeriod
  preferred_start_date : Option ℤ
  preferred_end_date : Option ℤ
  preferred_listing_type : Option ListingType
  date_flexibility_days : ℤ
  preference_profile : Option String
  preference_version : ℤ
  last_preference_update : Option ℤ
  evaluation_credits : ℚ
  deriving DecidableEq, Repr

/-- The `Listing.calculate_total_cost_for_duration` from `src/models/listing.py`.
Python's `if not self.price or not self.price_period` is truthy testing: a
missing price, a zero price, or a missing period all return `0.0`. -/
def Listing.calculate_total_cost_for_duration (l : Listing) (duration_days : ℤ) : ℚ :=
  match l.price, l.price_period with
  | none, _ => 0
  | some _, none => 0
  | some p, some per =>
    if p = 0 then 0
    else
      match per with
      | .day => p * duration_days
      | .week => p * ((duration_days : ℚ) / 7)
      | .month => p * ((duration_days : ℚ) / 30)

/-- The `User._calculate_total_cost` from `src/models/user.py`: converts a price
expressed in the user's own `price_period` into a total cost for a stay. -/
def User.calculate_total_cost (u : User) (price : ℚ) (duration_days : ℤ) : ℚ :=
  match u.price_period with
  | .day => price * duration_days
  | .week => price * ((duration_days : ℚ) / 7)
  | .month => price * ((duration_days : ℚ) / 30)

/-- The number of days a period covers under the normalization formulas
(`day ↦ 1`, `week ↦ 7`, `month ↦ 30`).  Two `(price, period)` pairs are
arithmetically equivalent when they denote the same daily rate, i.e. when
`price / periodDays` agree. -/
def periodDays : PricePeriod → ℚ
  | .day => 1
  | .week => 7
  | .month => 30

/-- The normalization formula applied to a listing-style `(price, period)`
pair, as in `Listing.calculate_total_cost_for_duration`'s non-degenerate
branch. -/
def periodTotalCost (price : ℚ) (per : PricePeriod) (duration_days : ℤ) : ℚ :=
  match per with
  | .day => price * duration_days
  | .week => price * ((duration_days : ℚ) / 7)
  | .month => price * ((duration_days : ℚ) / 30)

/-- The `User.get_stay_duration_days` from `src/models/user.py`: difference of
the preferred dates when both are set. -/
def User.get_stay_duration_days (u : User) : Option ℤ :=
  match u.preferred_start_date, u.preferred_end_date with
  | some s, some e => some (e - s)
  | _, _ => none

/-- Python `round(x, 2)` (banker's rounding, half to even), on rationals. -/
def roundHalfToEven (q : ℚ) : ℤ :=
  if q - ⌊q⌋ < 1/2 then ⌊q⌋
  else if (1 : ℚ)/2 < q - ⌊q⌋ then ⌊q⌋ + 1
  else if ⌊q⌋ % 2 = 0 then ⌊q⌋ else ⌊q⌋ + 1

/-- Rounding to two decimal places, as `round(·, 2)` in the source. -/
def round2 (q : ℚ) : ℚ := (roundHalfToEven (q * 100) : ℚ) / 100

/-- The hard-filter dictionary built by `User.get_hard_filters`
(`src/models/user.py`).  A key that the Python dict omits is `none` here.
`stay_duration_days` is present only when both dates are set and the
difference is truthy (nonzero), mirroring `if stay_duration:`. -/
structure HardFilters where
  min_price : Option ℚ
  max_price : Option ℚ
  price_period : PricePeriod
  preferred_start_date : Option ℤ
  preferred_end_date : Option ℤ
  preferred_listing_type : Option ListingType
  date_flexibility_days : ℤ
  stay_duration_days : Option ℤ
  min_total_cost : Option ℚ
  max_total_cost : Option ℚ
  deriving DecidableEq, Repr

/-- The `User.get_hard_filters` from `src/models/user.py`. -/
def User.get_hard_filters (u : User) : HardFilters :=
  let stay : Option ℤ :=
    match u.get_stay_duration_days with
    | some d => if d ≠ 0 then some d else none
    | none => none
  { min_price := u.min_price
    max_price := u.max_price
    price_period := u.price_period
    preferred_start_date := u.preferred_start_date
    preferred_end_date := u.preferred_end_date
    preferred_listing_type := u.preferred_listing_type
    date_flexibility_days := u.date_flexibility_days
    stay_duration_days := stay
    min_total_cost :=
      match stay, u.min_price with
      | some d, some mp => some (round2 (u.calculate_total_cost mp d))
      | _, _ => none
    max_total_cost :=
      match stay, u.max_price with
      | some d, some mp => some (round2 (u.calculate_total_cost mp d))
      | _, _ => none }

/-- A row of the `listing_evaluations` table
(`src/models/listing_evaluation.py`).  `id` is the sole primary key (a uuid
in the source, a `ℕ` here); there is no uniqueness constraint on
`(user_id, listing_id)`.  `tokens_used`, `model_used` and `created_at` are
omitted: no claim depends on them. -/
structure ListingEvaluation where
  id : ℕ
  user_id : ℕ
  listing_id : ℕ
  score : ℤ
  reasoning : String
  cost_usd : ℚ
  deriving DecidableEq, Repr

/-- The SQL expression `listing_total_cost` built inside
`ListingAgent._get_candidate_listings`: a `CASE` on the listing's period
times the user's stay duration, rounded to 2 decimals.  SQL `NULL`
propagation: a `NULL` price makes the whole expression `NULL` (`none`); a
`NULL` period falls through to the `else_` branch `price * stay`. -/
def listingTotalCostSQL (l : Listing) (stay : ℤ) : Option ℚ :=
  match l.price with
  | none => none
  | some p =>
    some (round2 (match l.price_period with
      | some .day => p * stay
      | some .week => p * ((stay : ℚ) / 7)
      | some .month => p * ((stay : ℚ) / 30)
      | none => p * stay))

/-- The conjunction of filters applied by
`ListingAgent._get_candidate_listings` (`src/services/listing_agent.py`) to
one listing: the anti-join against this user's evaluations, the price
filter (normalized when a truthy stay duration and at least one total-cost
bound exist, direct comparison when there is no stay duration, and no price
filter otherwise), the date-overlap filter with flexibility, and the
listing-type filter.  A SQL comparison against a `NULL` column drops the
row (`false`). -/
def candidatePred (u : User) (evals : List ListingEvaluation) (l : Listing) : Bool :=
  let hf := u.get_hard_filters
  let notEvaluated := ! evals.any (fun e => e.user_id == u.id && e.listing_id == l.id)
  let priceOk :=
    match hf.stay_duration_days with
    | some stay =>
      if hf.min_total_cost.isSome || hf.max_total_cost.isSome then
        (match hf.min_total_cost with
         | some mn =>
           match listingTotalCostSQL l stay with
           | some c => decide (mn ≤ c)
           | none => false
         | none => true) &&
        (match hf.max_total_cost with
         | some mx =>
           match listingTotalCostSQL l stay with
           | some c => decide (c ≤ mx)
           | none => false
         | none => true)
      else true
    | none =>
      (match hf.min_price with
       | some mn =>
         match l.price with
         | some p => decide (mn ≤ p)
         | none => false
       | none => true) &&
      (match hf.max_price with
       | some mx =>
         match l.price with
         | some p => decide (p ≤ mx)
         | none => false
       | none => true)
  let dateOk :=
    match hf.preferred_start_date, hf.preferred_end_date with
    | some ps, some pe =>
      let flex := hf.date_flexibility_days
      (match l.start_date with
       | some s => decide (s ≤ ps + flex)
       | none => false) &&
      (match l.end_date with
       | some e => decide (pe - flex ≤ e)
       | none => false)
    | _, _ => true
  let typeOk :=
    match hf.preferred_listing_type with
    | some t => decide (l.listing_type = t)
    | none => true
  notEvaluated && priceOk && dateOk && typeOk

/-- The filter-and-cap semantics of the query `_get_candidate_listings`
builds: the anti-join and the price/date/type filters (`candidatePred`),
capped at `limit`.  The source then orders with
`query.order_by(Listing.created_at.desc())` — but `Listing` has no
`created_at` column, so executing the function raises `AttributeError` on
every call (`get_candidate_listings_run` below models that run); no
ordering is modelled here because none is ever applied. -/
def ListingAgent.get_candidate_listings (u : User) (evals : List ListingEvaluation)
    (listings : List Listing) (limit : ℕ) : List Listing :=
  (listings.filter (candidatePred u evals)).take limit

/-- The runtime behaviour of `ListingAgent._get_candidate_listings`
(`src/services/listing_agent.py`, line 292): building the query evaluates
`Listing.created_at`, an attribute the mapped class does not have
(`src/models/listing.py` defines `scraped_at` only), so every call raises
`AttributeError` and no candidate list is ever returned. -/
def ListingAgent.get_candidate_listings_run (_u : User)
    (_evals : List ListingEvaluation) (_listings : List Listing) (_limit : ℕ) :
    Except PyExc (List Listing) :=
  .error .attributeError

/-- The `EvaluationResult` dataclass from `src/services/listing_evaluator.py`
(token counts, timing and model name omitted: no claim depends on them). -/
structure EvaluationResult where
  score : ℤ
  reasoning : String
  user_id : ℕ
  listing_id : ℕ
  cost_usd : ℚ
  deriving DecidableEq, Repr

/-- The evaluation table plus the uuid generator for fresh primary keys. -/
structure EvalDB where
  rows : List ListingEvaluation
  next_id : ℕ
  deriving DecidableEq, Repr

/-- One committed database transaction: the evaluation rows it inserted and
the change it applied to the user's `evaluation_credits`. -/
structure Txn where
  rows : List ListingEvaluation
  credit_delta : ℚ
  deriving DecidableEq, Repr

/-- A mapped `ListingEvaluation` object not yet flushed: its primary key is
unset until the INSERT fires the uuid default. -/
structure PendingEvaluation where
  id : Option ℕ
  user_id : ℕ
  listing_id : ℕ
  score : ℤ
  reasoning : String
  cost_usd : ℚ
  deriving DecidableEq, Repr

/-- The `ListingEvaluation.from_evaluation_result`
(`src/models/listing_evaluation.py`): builds a fresh mapped object from an
`EvaluationResult`; the primary key is left to the uuid default, so every
call yields an object with a new identity.  This is the field mapping the
code writes down, applicable only past the constructor defect: in the
source the same call passes an `evaluated_at=` keyword that no mapped
column accepts, so it raises `TypeError` on every call
(`from_evaluation_result_run` below models that run). -/
def ListingEvaluation.from_evaluation_result (r : EvaluationResult) : PendingEvaluation :=
  { id := none
    user_id := r.user_id
    listing_id := r.listing_id
    score := r.score
    reasoning := r.reasoning
    cost_usd := r.cost_usd }

/-- SQLAlchemy `Session.merge`: keyed on the primary key only.  An object
with a known, present key replaces that row; any other object is inserted
as a new row (with a fresh key when unset). -/
def Session.merge (db : EvalDB) (p : PendingEvaluation) : EvalDB × ListingEvaluation :=
  match p.id with
  | some i =>
    let row : ListingEvaluation :=
      { id := i, user_id := p.user_id, listing_id := p.listing_id,
        score := p.score, reasoning := p.reasoning, cost_usd := p.cost_usd }
    if db.rows.any (fun r => r.id == i) then
      ({ db with rows := db.rows.map (fun r => if r.id == i then row else r) }, row)
    else
      ({ db with rows := db.rows ++ [row] }, row)
  | none =>
    let row : ListingEvaluation :=
      { id := db.next_id, user_id := p.user_id, listing_id := p.listing_id,
        score := p.score, reasoning := p.reasoning, cost_usd := p.cost_usd }
    ({ rows := db.rows ++ [row], next_id := db.next_id + 1 }, row)

/-- The merge-and-commit semantics of `ListingAgent._store_evaluation`,
applicable only past the constructor defect: `merge` the freshly built
object and commit, returning the new table state and the committed
transaction.  As written the source never reaches the `merge` — the
constructor raises first (`store_evaluation_run` below) — and this
definition shows that even repaired it would insert, not upsert. -/
def ListingAgent.store_evaluation (db : EvalDB) (r : EvaluationResult) : EvalDB × Txn :=
  let m := Session.merge db (ListingEvaluation.from_evaluation_result r)
  (m.1, { rows := [m.2], credit_delta := 0 })

/-- The runtime behaviour of `ListingEvaluation.from_evaluation_result`: the
constructor call passes `evaluated_at=`, which is not a mapped column of
`ListingEvaluation`, so SQLAlchemy's declarative constructor raises
`TypeError` on every call. -/
def ListingEvaluation.from_evaluation_result_run (_r : EvaluationResult) :
    Except PyExc PendingEvaluation :=
  .error .typeError

/-- The runtime behaviour of `ListingAgent._store_evaluation`: the
constructor raises before `merge`, so every store fails with `TypeError`
and the table is never touched. -/
def ListingAgent.store_evaluation_run (db : EvalDB) (r : EvaluationResult) :
    Except PyExc (EvalDB × Txn) :=
  match ListingEvaluation.from_evaluation_result_run r with
  | .error e => .error e
  | .ok p =>
    let m := Session.merge db p
    .ok (m.1, { rows := [m.2], credit_delta := 0 })

/-- Number of evaluation rows stored for one `(user_id, listing_id)` pair. -/
def EvalDB.countPair (db : EvalDB) (uid lid : ℕ) : ℕ :=
  (db.rows.filter (fun r => r.user_id == uid && r.listing_id == lid)).length

/-- Behaviour of one Evaluator call, an input of the model: the external
call either raises or returns (score, reasoning, realized cost).  The
store's outcome is not an input — the store raises `TypeError` on every
call (`store_evaluation_run`). -/
inductive StepOutcome
  | evalFail
  | ok (score : ℤ) (reasoning : String) (cost_usd : ℚ)

/-- The mutable state of the scoring loop in
`ListingAgent.find_and_evaluate_listings`: its local variables
(`evaluations`, `total_cost`), the stats counters it updates, the table
state and transaction log, and the number of Evaluator calls made. -/
structure LoopState where
  evaluations : List (ℤ × ℚ)
  total_cost : ℚ
  completed : ℕ
  error_count : ℕ
  budget_exceeded : Bool
  db : EvalDB
  txns : List Txn
  calls : ℕ

/-- The scoring loop of `ListingAgent.find_and_evaluate_listings`
(`src/services/listing_agent.py`, lines 73–93): before each candidate,
stop (setting `budget_exceeded`) if `total_cost >= max_cost`; otherwise
call the Evaluator, append its result and add its realized cost, then
store; any exception from the Evaluator or the store increments
`error_count` and moves on.  The store is `store_evaluation_run`, which
raises `TypeError` on every call, and the append and cost tally precede
it, so every Evaluator-returned score stays in `evaluations` while
`completed` never increments.  (The loop is dead code in the source —
candidate selection raises before it — but is translated in full.) -/
def evalLoop (u : User) (beh : Listing → StepOutcome) (max_cost : ℚ) :
    List Listing → LoopState → LoopState
  | [], st => st
  | l :: rest, st =>
    if max_cost ≤ st.total_cost then { st with budget_exceeded := true }
    else
      match beh l with
      | .evalFail =>
        evalLoop u beh max_cost rest
          { st with error_count := st.error_count + 1, calls := st.calls + 1 }
      | .ok s rsn q =>
        let result : EvaluationResult :=
          { score := s, reasoning := rsn, user_id := u.id, listing_id := l.id,
            cost_usd := q }
        let st' := { st with
          evaluations := st.evaluations ++ [(s, q)]
          total_cost := st.total_cost + q
          calls := st.calls + 1 }
        match ListingAgent.store_evaluation_run st'.db result with
        | .error _ =>
          evalLoop u beh max_cost rest
            { st' with error_count := st'.error_count + 1 }
        | .ok stored =>
          evalLoop u beh max_cost rest
            { st' with
              db := stored.1
              txns := st'.txns ++ [stored.2]
              completed := st'.completed + 1 }

/-- Python `int(q)`: truncation toward zero. -/
def pyInt (q : ℚ) : ℤ := if 0 ≤ q then ⌊q⌋ else ⌈q⌉

/-- Python `xs[:k]` for a possibly negative `k`. -/
def pyTake {α : Type} (xs : List α) (k : ℤ) : List α :=
  if 0 ≤ k then xs.take k.toNat else xs.take (xs.length - (-k).toNat)

/-- The `ListingAgent._estimate_evaluation_cost` with the default evaluator
model `gpt-4o-mini` (`ListingEvaluator.token_costs`): 800 assumed input
tokens at 0.000150/1000 USD each plus 100 assumed output tokens at
0.000600/1000 USD each, per listing. -/
def cost_per_evaluation : ℚ := 800 * ((0.000150 : ℚ) / 1000) + 100 * ((0.000600 : ℚ) / 1000)

/-- The `ListingAgent._estimate_evaluation_cost`. -/
def ListingAgent.estimate_evaluation_cost (num_listings : ℕ) : ℚ :=
  num_listings * cost_per_evaluation

/-- The statistics dictionary returned by
`ListingAgent.find_and_evaluate_listings`. -/
structure RunStats where
  candidate_listings_found : ℕ
  evaluations_completed : ℕ
  total_cost : ℚ
  average_score : ℚ
  budget_exceeded : Bool
  error_count : ℕ
  deriving DecidableEq, Repr

/-- The trace of one `find_and_evaluate_listings` call: the stats it
returns — or the exception it raises — together with the side effects
performed up to that point: the table state, the committed transactions,
the number of Evaluator calls made, and the summed realized cost of the
evaluations actually performed (`spent`). -/
structure RunTrace where
  result : Except PyExc RunStats
  db : EvalDB
  txns : List Txn
  calls : ℕ
  spent : ℚ

/-- The `ListingAgent.find_and_evaluate_listings`
(`src/services/listing_agent.py`): its first statement fetches candidates,
and `_get_candidate_listings` raises `AttributeError` on every call
(`get_candidate_listings_run`); the exception is thrown before the `try`
— which wraps only the per-listing loop body — so it propagates out: the
call returns no stats, makes no Evaluator call, spends nothing and commits
nothing.  The unreachable success branch is nonetheless translated in full:
pre-flight trim when the estimate exceeds the cap
(`candidate_listings[:max_affordable]` with
`max_affordable = int(max_cost / (estimated_cost / len))`), the scoring
loop, then `total_cost` and `average_score` (mean of the local
`evaluations` list, `0.0` if it is empty). -/
def ListingAgent.find_and_evaluate_listings (u : User) (db : EvalDB)
    (listings : List Listing) (beh : Listing → StepOutcome)
    (max_evaluations : ℕ) (max_cost : ℚ) : RunTrace :=
  match ListingAgent.get_candidate_listings_run u db.rows listings max_evaluations with
  | .error e => { result := .error e, db := db, txns := [], calls := 0, spent := 0 }
  | .ok candidates =>
    let found := candidates.length
    if candidates.isEmpty then
      { result := .ok { candidate_listings_found := found,
                        evaluations_completed := 0, total_cost := 0,
                        average_score := 0, budget_exceeded := false,
                        error_count := 0 },
        db := db, txns := [], calls := 0, spent := 0 }
    else
      let estimated := ListingAgent.estimate_evaluation_cost found
      let trimmed :=
        if max_cost < estimated then
          (true, pyTake candidates (pyInt (max_cost / (estimated / found))))
        else (false, candidates)
      let st := evalLoop u beh max_cost trimmed.2
        { evaluations := [], total_cost := 0, completed := 0, error_count := 0,
          budget_exceeded := trimmed.1, db := db, txns := [], calls := 0 }
      { result := .ok { candidate_listings_found := found,
                        evaluations_completed := st.completed,
                        total_cost := st.total_cost,
                        average_score :=
                          if st.evaluations.isEmpty then 0
                          else ((st.evaluations.map (fun e => e.1)).sum : ℚ)
                            / st.evaluations.length,
                        budget_exceeded := st.budget_exceeded,
                        error_count := st.error_count },
        db := st.db, txns := st.txns, calls := st.calls, spent := st.total_cost }

/-- The `MIN_CREDIT_THRESHOLD` from `src/workers/tasks.py`. -/
def MIN_CREDIT_THRESHOLD : ℚ := 0.10

/-- The dictionary returned by the `evaluate_user_listings` task: either the
success payload or `{success: false, error: msg}`. -/
inductive TaskOutcome
  | ok (user_id : ℕ) (evaluations_completed : ℕ) (total_cost : ℚ)
      (remaining_credits : ℚ) (candidate_listings_found : ℕ)
      (budget_exceeded : Bool) (error_count : ℕ)
  | err (msg : String)
  deriving DecidableEq, Repr

/-- The observable result of one `evaluate_user_listings` task: the returned
dictionary, the final user row, the final evaluation table, the committed
transactions, and the number of Evaluator calls made. -/
structure TaskRun where
  outcome : TaskOutcome
  user : User
  db : EvalDB
  txns : List Txn
  calls : ℕ

/-- The `evaluate_user_listings` from `src/workers/tasks.py` (the user row is
passed directly; the user-not-found branch is outside every claim): refuse
below `MIN_CREDIT_THRESHOLD`; otherwise call
`find_and_evaluate_listings(user, max_cost=user.evaluation_credits)` with
the default `max_evaluations=50`.  On every such call the agent raises
`AttributeError` (candidate selection, `Listing.created_at`), which the
task catches via `except (ValueError, KeyError, AttributeError)` and turns
into a permanent-error failure, deducting nothing (the Python message
interpolates `str(e)`; the modelled message names the exception class).
The unreachable success branch — deduct the run's whole `total_cost` in
its own commit when it is positive — is translated in full. -/
def evaluate_user_listings (user : User) (db : EvalDB) (listings : List Listing)
    (beh : Listing → StepOutcome) : TaskRun :=
  if user.evaluation_credits < MIN_CREDIT_THRESHOLD then
    { outcome := .err "Insufficient credits", user := user, db := db,
      txns := [], calls := 0 }
  else
    let max_cost := user.evaluation_credits
    let run := ListingAgent.find_and_evaluate_listings user db listings beh 50 max_cost
    match run.result with
    | .error _ =>
      { outcome := .err "Permanent error: AttributeError", user := user,
        db := run.db, txns := run.txns, calls := run.calls }
    | .ok stats =>
      let actual := stats.total_cost
      if 0 < actual then
        let user' := { user with evaluation_credits := user.evaluation_credits - actual }
        { outcome := .ok user.id stats.evaluations_completed actual
            user'.evaluation_credits stats.candidate_listings_found
            stats.budget_exceeded stats.error_count,
          user := user', db := run.db,
          txns := run.txns ++ [{ rows := [], credit_delta := -actual }],
          calls := run.calls }
      else
        { outcome := .ok user.id stats.evaluations_completed actual
            user.evaluation_credits stats.candidate_listings_found
            stats.budget_exceeded stats.error_count,
          user := user, db := run.db, txns := run.txns, calls := run.calls }

/-- A preference-update request (`UserPreferenceUpdates` in
`src/services/user_service.py`).  The outer `Option` is pydantic's
provided/unset distinction (`exclude_unset`); the inner `Option` is the
value, which may be an explicit null for the nullable columns.
`price_period` and `date_flexibility_days` map to non-nullable columns (an
explicit null there would die at commit, an exceptional path outside the
claims), so only provided values are modelled for them. -/
structure UserPreferenceUpdates where
  min_price : Option (Option ℚ)
  max_price : Option (Option ℚ)
  price_period : Option PricePeriod
  preferred_start_date : Option (Option ℤ)
  preferred_end_date : Option (Option ℤ)
  date_flexibility_days : Option ℤ
  preferred_listing_type : Option (Option ListingType)
  preference_profile : Option (Option String)
  deriving DecidableEq, Repr

/-- Reading a pydantic attribute: an unset field and a field explicitly set
to `None` both read as `None`. -/
def attrValue {α : Type} : Option (Option α) → Option α
  | some (some v) => some v
  | _ => none

/-- The `_validate_price_range` from `src/services/user_service.py`: `Failure`
(the message) exactly when both bounds are set and `min_price > max_price`. -/
def validate_price_range (min_price max_price : Option ℚ) : Option String :=
  match min_price, max_price with
  | some a, some b =>
    if b < a then some "Minimum price cannot exceed maximum price" else none
  | _, _ => none

/-- The `_validate_date_range` from `src/services/user_service.py`: `Failure`
exactly when both dates are set and `start_date >= end_date`. -/
def validate_date_range (start_date end_date : Option ℤ) : Option String :=
  match start_date, end_date with
  | some a, some b =>
    if b ≤ a then some "End date must be after start date" else none
  | _, _ => none

/-- The `Result` returned by `UserService.update_user_preferences`. -/
inductive UpdateResult
  | ok (u : User)
  | failure (msg : String)
  deriving DecidableEq, Repr

/-- The `setattr` pass of `update_user_preferences`: write every provided
field (`model_dump(exclude_unset=True)`).  The source loops `setattr` over
the dumped keys; since every key names a distinct column, that loop is this
simultaneous record update. -/
def applyPreferenceUpdates (user : User) (upd : UserPreferenceUpdates) : User :=
  { user with
    min_price := match upd.min_price with | some v => v | none => user.min_price
    max_price := match upd.max_price with | some v => v | none => user.max_price
    price_period := match upd.price_period with | some v => v | none => user.price_period
    preferred_start_date := match upd.preferred_start_date with
      | some v => v | none => user.preferred_start_date
    preferred_end_date := match upd.preferred_end_date with
      | some v => v | none => user.preferred_end_date
    date_flexibility_days := match upd.date_flexibility_days with
      | some v => v | none => user.date_flexibility_days
    preferred_listing_type := match upd.preferred_listing_type with
      | some v => v | none => user.preferred_listing_type
    preference_profile := match upd.preference_profile with
      | some v => v | none => user.preference_profile }

/-- The merged minimum price validated by `update_user_preferences`:
`updates.min_price if updates.min_price is not None else user.min_price`. -/
def mergedMinPrice (user : User) (upd : UserPreferenceUpdates) : Option ℚ :=
  match attrValue upd.min_price with
  | some v => some v
  | none => user.min_price

/-- The merged maximum price validated by `update_user_preferences`. -/
def mergedMaxPrice (user : User) (upd : UserPreferenceUpdates) : Option ℚ :=
  match attrValue upd.max_price with
  | some v => some v
  | none => user.max_price

/-- The merged start date validated by `update_user_preferences`. -/
def mergedStartDate (user : User) (upd : UserPreferenceUpdates) : Option ℤ :=
  match attrValue upd.preferred_start_date with
  | some v => some v
  | none => user.preferred_start_date

/-- The merged end date validated by `update_user_preferences`. -/
def mergedEndDate (user : User) (upd : UserPreferenceUpdates) : Option ℤ :=
  match attrValue upd.preferred_end_date with
  | some v => some v
  | none => user.preferred_end_date

/-- The `UserService.update_user_preferences` (`src/services/user_service.py`):
validate the merged price range (the update's value where provided and
non-null, else the user's current value), then the merged date range; on
the first failure return it with the user untouched; otherwise apply the
provided fields, bump `preference_version`, stamp `last_preference_update`,
commit.  Returns the `Result` and the final user row. -/
def UserService.update_user_preferences (user : User) (upd : UserPreferenceUpdates)
    (now : ℤ) : UpdateResult × User :=
  match validate_price_range (mergedMinPrice user upd) (mergedMaxPrice user upd) with
  | some msg => (.failure msg, user)
  | none =>
    match validate_date_range (mergedStartDate user upd) (mergedEndDate user upd) with
    | some msg => (.failure msg, user)
    | none =>
      let u := applyPreferenceUpdates user upd
      let u := { u with preference_version := u.preference_version + 1,
                        last_preference_update := some now }
      (.ok u, u)

/-- Concrete fixture: a user with no hard filters set (no price bounds, no
dates, no type preference, zero flexibility), used to instantiate claims. -/
def blankUser (credits : ℚ) : User :=
  { id := 1, min_price := none, max_price := none, price_period := .month,
    preferred_start_date := none, preferred_end_date := none,
    preferred_listing_type := none, date_flexibility_days := 0,
    preference_profile := some "profile", preference_version := 1,
    last_preference_update := none, evaluation_credits := credits }

/-- Concrete fixture: a listing with no price or dates set, so it is caught
by no optional filter. -/
def plainListing (i : ℕ) (ca : ℤ) : Listing :=
  { id := i, price := none, price_period := none, start_date := none,
    end_date := none, listing_type := .sublet, scraped_at := some ca }

/-- Concrete fixture: an empty evaluation table. -/
def emptyDB : EvalDB := { rows := [], next_id := 0 }

/-- Concrete fixture: `blankUser` with a preferred stay window and a date
flexibility. -/
def windowUser (ps pe flex : ℤ) : User :=
  { blankUser 1 with
    preferred_start_date := some ps
    preferred_end_date := some pe
    date_flexibility_days := flex }

/-- Concrete fixture: a listing whose stay window starts on day 96, four
days before a preferred start of day 100, and ends on day 110. -/
def earlyListing : Listing :=
  { id := 10, price := some 1000, price_period := some .month,
    start_date := some 96, end_date := some 110, listing_type := .sublet,
    scraped_at := some 0 }

/-- Concrete fixture behaviour: every Evaluator call succeeds with the given
score and realized cost. -/
def behConst (s : ℤ) (q : ℚ) : Listing → StepOutcome := fun _ => .ok s "r" q

/-- A listing whose availability window sits exactly four days earlier than
the user window `[ps, pe]`; price, period, type and scrape time are
arbitrary. -/
def shiftedListing (ps pe ca : ℤ) (pr : Option ℚ) (pp : Option PricePeriod)
    (lty : ListingType) : Listing :=
  { id := 10, price := pr, price_period := pp, start_date := some (ps - 4),
    end_date := some (pe - 4), listing_type := lty, scraped_at := some ca }

/-- Concrete fixture: a user whose stored price range is already inverted
(`min_price = 5 > 3 = max_price`). -/
def badPriceUser : User :=
  { blankUser 1 with
    min_price := some 5
    max_price := some 3 }

/-- Concrete fixture: a preference-update request providing no field. -/
def noUpdates : UserPreferenceUpdates :=
  ⟨none, none, none, none, none, none, none, none⟩

/-- Concrete fixture: a listing priced at $150/day. -/
def dayListing : Listing :=
  { id := 1, price := some 150, price_period := some .day, start_date := none,
    end_date := none, listing_type := .sublet, scraped_at := none }

/-- Concrete fixture: a listing priced at $1050/week, the same daily rate as
`dayListing`. -/
def weekListing : Listing :=
  { id := 2, price := some 1050, price_period := some .week, start_date := none,
    end_date := none, listing_type := .sublet, scraped_at := none }

theorem periodTotalCost_eq_rate_mul (price : ℚ) (per : PricePeriod) (d : ℤ) :
    periodTotalCost price per d = price / periodDays per * d := by
  cases per <;> simp [periodTotalCost, periodDays] <;> ring

theorem calculate_total_cost_for_duration_eq (l : Listing) (p : ℚ) (per : PricePeriod)
    (hp : l.price = some p) (hper : l.price_period = some per) (hp0 : p ≠ 0) (d : ℤ) :
    l.calculate_total_cost_for_duration d = periodTotalCost p per d := by
  cases per <;>
    simp [Listing.calculate_total_cost_for_duration, hp, hper, hp0, periodTotalCost]

/-- A listing with a set price and period is priced at its daily rate times
the duration, for every period (the `p = 0` degenerate branch agrees with
the formula). -/
theorem calculate_total_cost_for_duration_eq_rate_mul (l : Listing) (p : ℚ)
    (per : PricePeriod) (hp : l.price = some p) (hper : l.price_period = some per)
    (d : ℤ) :
    l.calculate_total_cost_for_duration d = p / periodDays per * d := by
  by_cases hp0 : p = 0
  · subst hp0
    cases per <;>
      simp [Listing.calculate_total_cost_for_duration, hp, hper]
  · rw [calculate_total_cost_for_duration_eq l p per hp hper hp0 d,
      periodTotalCost_eq_rate_mul]

/-- The `User._calculate_total_cost` computes the same formula as a listing with
the user's period. -/
theorem User.calculate_total_cost_eq (u : User) (price : ℚ) (d : ℤ) :
    u.calculate_total_cost price d = periodTotalCost price u.price_period d := by
  cases h : u.price_period <;> simp [User.calculate_total_cost, periodTotalCost, h]

/-- Claim C5: for every duration, two priced listings whose `(price, period)`
pairs denote the same daily rate under the normalization formulas get total
costs within 0.01 of each other (in the exact-rational model they are
equal); in particular $150/day, $1050/week and $4500/month price out
identically for every duration. -/
theorem C5_price_period_equivalence :
    (∀ (l₁ l₂ : Listing) (p₁ p₂ : ℚ) (per₁ per₂ : PricePeriod) (d : ℤ),
      l₁.price = some p₁ → l₁.price_period = some per₁ →
      l₂.price = some p₂ → l₂.price_period = some per₂ →
      p₁ / periodDays per₁ = p₂ / periodDays per₂ →
      |l₁.calculate_total_cost_for_duration d - l₂.calculate_total_cost_for_duration d|
        < 1/100) ∧
    (∀ d : ℤ, periodTotalCost 150 .day d = periodTotalCost 1050 .week d ∧
      periodTotalCost 1050 .week d = periodTotalCost 4500 .month d) := by
  constructor
  · intro l₁ l₂ p₁ p₂ per₁ per₂ d h₁ h₁p h₂ h₂p hrate
    rw [calculate_total_cost_for_duration_eq_rate_mul l₁ p₁ per₁ h₁ h₁p d,
      calculate_total_cost_for_duration_eq_rate_mul l₂ p₂ per₂ h₂ h₂p d, hrate,
      sub_self, abs_zero]
    norm_num
  · intro d
    refine ⟨?_, ?_⟩ <;>
      · rw [periodTotalCost_eq_rate_mul, periodTotalCost_eq_rate_mul]
        norm_num [periodDays]

/-- Witness for C5 at `(150, day)` vs `(1050, week)` over 14 days. -/
theorem C5_price_period_equivalence_witness :
    |dayListing.calculate_total_cost_for_duration 14 -
      weekListing.calculate_total_cost_for_duration 14| < 1/100 :=
  C5_price_period_equivalence.1 dayListing weekListing 150 1050 .day .week 14
    rfl rfl rfl rfl (by norm_num [periodDays])

/-- Claim C4: storing two evaluation results for the same `(user, listing)` pair
leaves two rows in the table, not one overwritten row: `merge` keys on the
freshly generated primary key, and no uniqueness constraint exists on
`(user_id, listing_id)`. -/
theorem C4_duplicate_rows_on_double_store :
    ((ListingAgent.store_evaluation
        (ListingAgent.store_evaluation emptyDB
          { score := 7, reasoning := "a", user_id := 1, listing_id := 10,
            cost_usd := 1/100 }).1
        { score := 9, reasoning := "b", user_id := 1, listing_id := 10,
          cost_usd := 1/50 }).1).countPair 1 10 = 2 := by decide

/-- Claim C6: a user below `MIN_CREDIT_THRESHOLD` gets an immediate
`"Insufficient credits"` failure with zero Evaluator calls, no change to
the evaluation table, no committed transaction, and an unchanged user row. -/
theorem C6_insufficient_credits_guard (user : User) (db : EvalDB)
    (listings : List Listing) (beh : Listing → StepOutcome)
    (h : user.evaluation_credits < MIN_CREDIT_THRESHOLD) :
    (evaluate_user_listings user db listings beh).outcome
        = .err "Insufficient credits" ∧
    (evaluate_user_listings user db listings beh).calls = 0 ∧
    (evaluate_user_listings user db listings beh).db = db ∧
    (evaluate_user_listings user db listings beh).txns = [] ∧
    (evaluate_user_listings user db listings beh).user = user := by
  unfold evaluate_user_listings
  rw [if_pos h]
  exact ⟨rfl, rfl, rfl, rfl, rfl⟩

/-- Witness for C6 at `evaluation_credits = 0.05`. -/
theorem C6_insufficient_credits_guard_witness :
    (evaluate_user_listings (blankUser (1/20)) emptyDB [plainListing 10 0]
        (behConst 5 (1/2))).outcome = .err "Insufficient credits" ∧
    (evaluate_user_listings (blankUser (1/20)) emptyDB [plainListing 10 0]
        (behConst 5 (1/2))).calls = 0 ∧
    (evaluate_user_listings (blankUser (1/20)) emptyDB [plainListing 10 0]
        (behConst 5 (1/2))).db = emptyDB ∧
    (evaluate_user_listings (blankUser (1/20)) emptyDB [plainListing 10 0]
        (behConst 5 (1/2))).txns = [] ∧
    (evaluate_user_listings (blankUser (1/20)) emptyDB [plainListing 10 0]
        (behConst 5 (1/2))).user = blankUser (1/20) :=
  C6_insufficient_credits_guard (blankUser (1/20)) emptyDB [plainListing 10 0]
    (behConst 5 (1/2)) (by norm_num [blankUser, MIN_CREDIT_THRESHOLD])

/-- Claim C8: once an Evaluation row exists for `(user, listing)`, candidate
selection never returns that listing for that user again — the anti-join
excludes it before any price, date or type filter is consulted, so this
holds for every filter configuration the user may have. -/
theorem C8_evaluated_listing_never_candidate (u : User)
    (evals : List ListingEvaluation) (listings : List Listing) (limit : ℕ)
    (l : Listing) (e : ListingEvaluation) (he : e ∈ evals)
    (heu : e.user_id = u.id) (hel : e.listing_id = l.id) :
    l ∉ ListingAgent.get_candidate_listings u evals listings limit := by
  intro hmem
  have h2 : l ∈ listings.filter (candidatePred u evals) :=
    List.mem_of_mem_take hmem
  have h3 : candidatePred u evals l = true := (List.mem_filter.mp h2).2
  simp only [candidatePred, Bool.and_eq_true, Bool.not_eq_true',
    List.any_eq_false] at h3
  have h4 := h3.1.1.1 e he
  simp [heu, hel] at h4

/-- Witness for C8 at a concrete evaluated pair. -/
theorem C8_evaluated_listing_never_candidate_witness :
    plainListing 10 0 ∉ ListingAgent.get_candidate_listings (blankUser 1)
      [⟨0, 1, 10, 5, "r", 1/2⟩] [plainListing 10 0] 100 :=
  C8_evaluated_listing_never_candidate (blankUser 1) [⟨0, 1, 10, 5, "r", 1/2⟩]
    [plainListing 10 0] 100 (plainListing 10 0) ⟨0, 1, 10, 5, "r", 1/2⟩
    (List.mem_singleton.mpr rfl) rfl rfl

/-- Claim C10: `update_user_preferences` fails exactly on the merged price-range
or date-range violation, leaving the user row untouched; on success it
writes exactly the provided fields, bumps `preference_version` by one and
stamps `last_preference_update`, leaving everything else unchanged. -/
theorem C10_update_preferences_validation (user : User)
    (upd : UserPreferenceUpdates) (now : ℤ) :
    (∀ msg, validate_price_range (mergedMinPrice user upd) (mergedMaxPrice user upd)
        = some msg →
      UserService.update_user_preferences user upd now = (.failure msg, user)) ∧
    (validate_price_range (mergedMinPrice user upd) (mergedMaxPrice user upd) = none →
      ∀ msg, validate_date_range (mergedStartDate user upd) (mergedEndDate user upd)
          = some msg →
        UserService.update_user_preferences user upd now = (.failure msg, user)) ∧
    (validate_price_range (mergedMinPrice user upd) (mergedMaxPrice user upd) = none →
      validate_date_range (mergedStartDate user upd) (mergedEndDate user upd) = none →
      ∃ u2, UserService.update_user_preferences user upd now = (.ok u2, u2) ∧
        u2.min_price = (match upd.min_price with | some v => v | none => user.min_price) ∧
        u2.max_price = (match upd.max_price with | some v => v | none => user.max_price) ∧
        u2.price_period
          = (match upd.price_period with | some v => v | none => user.price_period) ∧
        u2.preferred_start_date = (match upd.preferred_start_date with
          | some v => v | none => user.preferred_start_date) ∧
        u2.preferred_end_date = (match upd.preferred_end_date with
          | some v => v | none => user.preferred_end_date) ∧
        u2.date_flexibility_days = (match upd.date_flexibility_days with
          | some v => v | none => user.date_flexibility_days) ∧
        u2.preferred_listing_type = (match upd.preferred_listing_type with
          | some v => v | none => user.preferred_listing_type) ∧
        u2.preference_profile = (match upd.preference_profile with
          | some v => v | none => user.preference_profile) ∧
        u2.preference_version = user.preference_version + 1 ∧
        u2.last_preference_update = some now ∧
        u2.id = user.id ∧
        u2.evaluation_credits = user.evaluation_credits) := by
  refine ⟨?_, ?_, ?_⟩
  · intro msg h
    simp [UserService.update_user_preferences, h]
  · intro hp msg h
    simp [UserService.update_user_preferences, hp, h]
  · intro hp hd
    refine ⟨{ applyPreferenceUpdates user upd with
        preference_version := user.preference_version + 1
        last_preference_update := some now },
      ?_, rfl, rfl, rfl, rfl, rfl, rfl, rfl, rfl, rfl, rfl, rfl, rfl⟩
    simp only [UserService.update_user_preferences, hp, hd]
    rfl

/-- Witness for C10: a user whose stored range is already inverted fails
validation on an empty update, untouched. -/
theorem C10_update_preferences_validation_witness :
    UserService.update_user_preferences badPriceUser noUpdates 0
      = (.failure "Minimum price cannot exceed maximum price", badPriceUser) :=
  (C10_update_preferences_validation badPriceUser noUpdates 0).1
    "Minimum price cannot exceed maximum price"
    (by norm_num [validate_price_range, mergedMinPrice, mergedMaxPrice, attrValue,
      badPriceUser, blankUser, noUpdates])

/-- Claim C1: the budget cap is never exceeded — degenerately so: every call
to `find_and_evaluate_listings` raises `AttributeError` in candidate
selection before the scoring loop, so no evaluation is ever performed,
nothing is ever spent, and the summed realized cost of the evaluations
actually performed (zero) never exceeds any nonnegative cap. -/
theorem C1_budget_never_exceeded (u : User) (db : EvalDB)
    (listings : List Listing) (beh : Listing → StepOutcome)
    (max_evaluations : ℕ) (max_cost : ℚ) (hmc : 0 ≤ max_cost) :
    (ListingAgent.find_and_evaluate_listings u db listings beh max_evaluations
      max_cost).spent ≤ max_cost ∧
    (ListingAgent.find_and_evaluate_listings u db listings beh max_evaluations
      max_cost).spent = 0 ∧
    (ListingAgent.find_and_evaluate_listings u db listings beh max_evaluations
      max_cost).calls = 0 ∧
    (ListingAgent.find_and_evaluate_listings u db listings beh max_evaluations
      max_cost).result = .error .attributeError := by
  refine ⟨?_, rfl, rfl, rfl⟩
  show (0 : ℚ) ≤ max_cost
  exact hmc

/-- Witness for C1 at a concrete call with cap 1. -/
theorem C1_budget_never_exceeded_witness :
    (ListingAgent.find_and_evaluate_listings (blankUser 1) emptyDB
      [plainListing 10 0] (behConst 5 (1/2)) 50 1).spent ≤ 1 ∧
    (ListingAgent.find_and_evaluate_listings (blankUser 1) emptyDB
      [plainListing 10 0] (behConst 5 (1/2)) 50 1).spent = 0 ∧
    (ListingAgent.find_and_evaluate_listings (blankUser 1) emptyDB
      [plainListing 10 0] (behConst 5 (1/2)) 50 1).calls = 0 ∧
    (ListingAgent.find_and_evaluate_listings (blankUser 1) emptyDB
      [plainListing 10 0] (behConst 5 (1/2)) 50 1).result
        = .error .attributeError :=
  C1_budget_never_exceeded (blankUser 1) emptyDB [plainListing 10 0]
    (behConst 5 (1/2)) 50 1 (by norm_num)

/-- Claim C2: for each candidate, either both the Evaluation record and the
credit decrement are committed or neither is — in the program, always
neither: a below-threshold user is refused before any work, and every
admitted run raises `AttributeError` in candidate selection, which the task
catches, deducting nothing; no transaction is ever committed, the table and
user row are untouched, and every committed Evaluation row (there are none)
trivially carries its decrement. -/
theorem C2_atomicity_neither_commits (user : User) (db : EvalDB)
    (listings : List Listing) (beh : Listing → StepOutcome) :
    (evaluate_user_listings user db listings beh).txns = [] ∧
    (evaluate_user_listings user db listings beh).db = db ∧
    (evaluate_user_listings user db listings beh).user = user ∧
    (∀ t ∈ (evaluate_user_listings user db listings beh).txns,
      ∀ r ∈ t.rows, t.credit_delta = -r.cost_usd) := by
  have htx : (evaluate_user_listings user db listings beh).txns = [] := by
    simp only [evaluate_user_listings]
    split <;> rfl
  refine ⟨htx, ?_, ?_, ?_⟩
  · simp only [evaluate_user_listings]
    split <;> rfl
  · simp only [evaluate_user_listings]
    split <;> rfl
  · rw [htx]
    intro t ht
    exact absurd ht (List.not_mem_nil t)

/-- Witness for C2 at a concrete one-candidate call. -/
theorem C2_atomicity_neither_commits_witness :
    (evaluate_user_listings (blankUser 1) emptyDB [plainListing 10 0]
      (behConst 5 (1/2))).txns = [] ∧
    (evaluate_user_listings (blankUser 1) emptyDB [plainListing 10 0]
      (behConst 5 (1/2))).user = blankUser 1 :=
  ⟨(C2_atomicity_neither_commits (blankUser 1) emptyDB [plainListing 10 0]
      (behConst 5 (1/2))).1,
    (C2_atomicity_neither_commits (blankUser 1) emptyDB [plainListing 10 0]
      (behConst 5 (1/2))).2.2.1⟩

/-- Claim C3: `evaluation_credits` is never driven negative — it is never
decremented at all: a below-threshold user is refused before any work, and
every admitted run raises `AttributeError` in candidate selection, is
caught as a permanent error, and returns with the user row unchanged; a
balance that starts nonnegative stays nonnegative. -/
theorem C3_credits_never_negative (user : User) (db : EvalDB)
    (listings : List Listing) (beh : Listing → StepOutcome) :
    (evaluate_user_listings user db listings beh).user.evaluation_credits
      = user.evaluation_credits ∧
    (0 ≤ user.evaluation_credits →
      0 ≤ (evaluate_user_listings user db listings beh).user.evaluation_credits) := by
  have h : (evaluate_user_listings user db listings beh).user = user := by
    simp only [evaluate_user_listings]
    split <;> rfl
  exact ⟨by rw [h], fun hc => by rw [h]; exact hc⟩

/-- Witness for C3 at a concrete admitted user. -/
theorem C3_credits_never_negative_witness :
    0 ≤ (evaluate_user_listings (blankUser (1/10)) emptyDB [plainListing 10 0]
      (behConst 5 (1/2))).user.evaluation_credits :=
  (C3_credits_never_negative (blankUser (1/10)) emptyDB [plainListing 10 0]
    (behConst 5 (1/2))).2 (by norm_num [blankUser])

/-- Claim C7 counterexample: both halves of the claim fail on the code.  At
`date_flexibility_days = 5` the listing is not included — the real
candidate query raises `AttributeError` and returns nothing — and under the
filter semantics of the query the four-days-early listing is not excluded
at `date_flexibility_days = 0` either, because an earlier start satisfies
`start_date ≤ preferred_start_date + flex`. -/
theorem C7_flexibility_counterexample :
    ListingAgent.get_candidate_listings_run (windowUser 100 110 5) []
      [earlyListing] 100 = .error .attributeError ∧
    earlyListing ∈ ListingAgent.get_candidate_listings (windowUser 100 110 0) []
      [earlyListing] 100 :=
  ⟨rfl, by decide⟩

/-- Claim C7 amended: candidate selection as written never returns — every
call raises `AttributeError` — so no listing is ever included at any
flexibility; and under the filter semantics of the query built before the
crash, flexibility widens the pool only for a listing whose whole window
shifts: a window sitting four days earlier than the user's is excluded at
flexibility 0 (it ends before `preferred_end_date − 0`) and would be
included at flexibility 5, for every window position and every price,
period, type and scrape time of the listing. -/
theorem C7_amended_crash_and_shifted_window (ps pe ca : ℤ) (pr : Option ℚ)
    (pp : Option PricePeriod) (lty : ListingType) (limit : ℕ) (hl : 1 ≤ limit) :
    (∀ (u : User) (evals : List ListingEvaluation) (listings : List Listing),
      ListingAgent.get_candidate_listings_run u evals listings limit
        = .error .attributeError) ∧
    shiftedListing ps pe ca pr pp lty ∉
      ListingAgent.get_candidate_listings (windowUser ps pe 0) []
        [shiftedListing ps pe ca pr pp lty] limit ∧
    shiftedListing ps pe ca pr pp lty ∈
      ListingAgent.get_candidate_listings (windowUser ps pe 5) []
        [shiftedListing ps pe ca pr pp lty] limit := by
  have hpred0 : candidatePred (windowUser ps pe 0) []
      (shiftedListing ps pe ca pr pp lty) = false := by
    rcases eq_or_ne (pe - ps) 0 with h0 | h0 <;>
      simp [candidatePred, windowUser, blankUser, shiftedListing,
        User.get_hard_filters, User.get_stay_duration_days, h0]
  have hpred5 : candidatePred (windowUser ps pe 5) []
      (shiftedListing ps pe ca pr pp lty) = true := by
    rcases eq_or_ne (pe - ps) 0 with h0 | h0 <;>
      simp [candidatePred, windowUser, blankUser, shiftedListing,
        User.get_hard_filters, User.get_stay_duration_days, h0] <;>
      omega
  refine ⟨fun _ _ _ => rfl, ?_, ?_⟩
  · simp [ListingAgent.get_candidate_listings, List.filter, hpred0]
  · have hfil : List.filter (candidatePred (windowUser ps pe 5) [])
        [shiftedListing ps pe ca pr pp lty]
        = [shiftedListing ps pe ca pr pp lty] := by
      simp [List.filter, hpred5]
    have htake : ([shiftedListing ps pe ca pr pp lty] : List Listing).take limit
        = [shiftedListing ps pe ca pr pp lty] :=
      List.take_of_length_le (by simpa using hl)
    simp [ListingAgent.get_candidate_listings, hfil, htake]

/-- Witness for the amended C7 at window `[100, 110]`. -/
theorem C7_amended_crash_and_shifted_window_witness :
    (∀ (u : User) (evals : List ListingEvaluation) (listings : List Listing),
      ListingAgent.get_candidate_listings_run u evals listings 100
        = .error .attributeError) ∧
    shiftedListing 100 110 0 (some 1000) (some .month) .sublet ∉
      ListingAgent.get_candidate_listings (windowUser 100 110 0) []
        [shiftedListing 100 110 0 (some 1000) (some .month) .sublet] 100 ∧
    shiftedListing 100 110 0 (some 1000) (some .month) .sublet ∈
      ListingAgent.get_candidate_listings (windowUser 100 110 5) []
        [shiftedListing 100 110 0 (some 1000) (some .month) .sublet] 100 :=
  C7_amended_crash_and_shifted_window 100 110 0 (some 1000) (some .month)
    .sublet 100 (by norm_num)

/-- Claim C9: the stats semantics the claim describes never materializes.
At the failing input — a no-filter user, one candidate listing, an
Evaluator that would return score 8 at cost 0.01 — the call raises
`AttributeError` in candidate selection with zero Evaluator calls and
returns no stats at all; and the store raises `TypeError` on every call, so
no evaluation could ever be counted completed, while every
Evaluator-returned score is appended before the store and would therefore
still feed the average. -/
theorem C9_run_crashes_before_scoring :
    (ListingAgent.find_and_evaluate_listings (blankUser 1) emptyDB
      [plainListing 10 0] (behConst 8 (1/100)) 50 1).result
        = .error .attributeError ∧
    (ListingAgent.find_and_evaluate_listings (blankUser 1) emptyDB
      [plainListing 10 0] (behConst 8 (1/100)) 50 1).calls = 0 ∧
    (∀ (db : EvalDB) (r : EvaluationResult),
      ListingAgent.store_evaluation_run db r = .error .typeError) :=
  ⟨rfl, rfl, fun _ _ => rfl⟩

end Dwellr

